import Mathlib

/-
Shallow embedding of the two demonstration scripts of the repository
(src/pyapp/embed.py and src/pyapp/test.py).

The scripts are straight-line call sequences against two external
services: a sentence-embedding model and a vector database.  The
external services are modelled from the contracts stated in the
specification (sections 3, 4 and 6); the scripts themselves are
translated statement by statement.  Each script becomes a function
from an environment (configuration lookups, connection, model loading,
random draws) and an initial database state to either an error or a
final database state paired with a trace of the effectful calls.
-/

/-- Errors are plain messages, as Python exceptions are opaque here. -/
abbrev Err := String

/-- Field data kinds used by the scripts (pymilvus DataType values
INT64, FLOAT_VECTOR, VARCHAR). -/
inductive DataType
| int64
| floatVector
| varchar
deriving DecidableEq

/-- Modelled from the spec: a field descriptor (spec section 3, Schema):
name, data kind, primary-key flag, auto-generated-id flag, vector
dimension and maximum string length where applicable. -/
structure FieldSchema where
  name : String
  dtype : DataType
  isPrimary : Bool := false
  autoId : Bool := false
  dim : Option Nat := none
  maxLength : Option Nat := none
  description : String := ""
deriving DecidableEq

/-- Modelled from the spec: a collection schema is an ordered list of
field descriptors (spec section 3). -/
structure CollectionSchema where
  fields : List FieldSchema
  autoId : Bool := false
  description : String := ""
deriving DecidableEq

/-- A scalar or vector value stored in a field.  Floating-point numbers
are modelled as rationals; the claims depend only on equality,
determinism and ordering of distances, not on rounding. -/
inductive Value
| int (i : Int)
| floatVec (v : List Rat)
| str (s : String)
deriving DecidableEq

/-- One row of a collection, aligned with the schema field list. -/
abbrev Row := List Value

/-- Modelled from the spec: a collection is a schema plus its rows
(spec section 3, Collection / Entity). -/
structure CollectionData where
  schema : CollectionSchema
  rows : List Row
deriving DecidableEq

/-- Modelled from the spec: the database state is the list of named
collections (spec section 3). -/
abbrev MilvusState := List (String × CollectionData)

/-- Modelled from the spec: has_collection(name) (spec section 4.2). -/
def hasCollection (st : MilvusState) (n : String) : Bool :=
  st.any (fun p => decide (p.1 = n))

/-- Modelled from the spec: drop_collection(name) (spec section 4.2). -/
def dropCollection (st : MilvusState) (n : String) : MilvusState :=
  st.filter (fun p => decide (¬ p.1 = n))

/-- Modelled from the spec: create_collection(name, schema)
(spec section 4.2); the fresh collection is empty. -/
def createCollection (st : MilvusState) (n : String) (s : CollectionSchema) : MilvusState :=
  (n, { schema := s, rows := [] }) :: st

/-- Look up a collection by name. -/
def lookupColl (st : MilvusState) (n : String) : Option CollectionData :=
  (st.find? (fun p => decide (p.1 = n))).map Prod.snd

/-- Apply a function to the collection with the given name. -/
def updateColl (st : MilvusState) (n : String) (f : CollectionData → CollectionData) : MilvusState :=
  st.map (fun p => if p.1 = n then (p.1, f p.2) else p)

/-- Number of collections carrying a given name. -/
def countColl (st : MilvusState) (n : String) : Nat :=
  st.countP (fun p => decide (p.1 = n))

/-- Modelled from the spec: schema validation of a single value against
its field descriptor; the vector dimension must equal the declared
dimension exactly (spec section 3, Invariant). -/
def checkValue (f : FieldSchema) (v : Value) : Bool :=
  match f.dtype, v with
  | DataType.int64, Value.int _ => true
  | DataType.floatVector, Value.floatVec xs => decide (f.dim = some xs.length)
  | DataType.varchar, Value.str s => decide (s.length ≤ f.maxLength.getD 0)
  | _, _ => false

/-- Modelled from the spec: insert in parallel-array form
(spec sections 3 and 4.4).  Checks the column count against the schema,
equal column lengths, and per-value schema validation; on success the
transposed rows are appended to the collection. -/
def insertCols (st : MilvusState) (n : String) (cols : List (List Value)) :
    Except Err (MilvusState × Nat) :=
  match lookupColl st n with
  | none => Except.error "collection not found"
  | some cd =>
    if cols.length = cd.schema.fields.length then
      let cnt := (cols.headD []).length
      if cols.all (fun c => decide (c.length = cnt)) then
        let rows := (List.range cnt).map (fun i => cols.map (fun c => c.getD i (Value.int 0)))
        if rows.all (fun r => (cd.schema.fields.zip r).all (fun fv => checkValue fv.1 fv.2)) then
          Except.ok (updateColl st n (fun d => { schema := d.schema, rows := d.rows ++ rows }), cnt)
        else Except.error "schema validation failed"
      else Except.error "column length mismatch"
    else Except.error "field count mismatch"

/-- Modelled from the spec: insert in row-dictionary form
(spec sections 3 and 4.4).  Auto-id primary fields receive generated
sequential identifiers; the other fields are taken from the dictionary
and validated against the schema. -/
def insertDicts (st : MilvusState) (n : String) (dicts : List (List (String × Value))) :
    Except Err (MilvusState × Nat) :=
  match lookupColl st n with
  | none => Except.error "collection not found"
  | some cd =>
    let base := cd.rows.length
    let rows := (List.range dicts.length).map (fun i =>
      cd.schema.fields.map (fun f =>
        if f.autoId then Value.int (Int.ofNat (base + i))
        else ((dicts.getD i []).find? (fun p => decide (p.1 = f.name))).map Prod.snd |>.getD (Value.int 0)))
    if rows.all (fun r => (cd.schema.fields.zip r).all (fun fv => fv.1.autoId || checkValue fv.1 fv.2)) then
      Except.ok (updateColl st n (fun d => { schema := d.schema, rows := d.rows ++ rows }), dicts.length)
    else Except.error "schema validation failed"

/-- Squared L2 distance between two vectors (spec section 4.6; the
square root is omitted since only ordering and vanishing matter). -/
def sqDist (u v : List Rat) : Rat :=
  ((u.zipWith (fun a b => a - b) v).map (fun x => x * x)).sum

/-- Modelled from the spec: a query hit is a primary-key value plus a
distance (spec section 3, Query hit). -/
structure Hit where
  id : Int
  distance : Rat
deriving DecidableEq

/-- Insert a hit into a distance-sorted list, keeping earlier hits
first on ties. -/
def insertHit (h : Hit) : List Hit → List Hit
  | [] => [h]
  | h2 :: t => if h.distance ≤ h2.distance then h :: h2 :: t else h2 :: insertHit h t

/-- Sort hits by ascending distance (stable insertion sort). -/
def sortHits (l : List Hit) : List Hit :=
  l.foldr insertHit []

/-- Extract an integer value, defaulting to 0. -/
def valueInt : Value → Int
  | Value.int i => i
  | _ => 0

/-- Extract a vector value, defaulting to the empty vector. -/
def valueVec : Value → List Rat
  | Value.floatVec v => v
  | _ => []

/-- Modelled from the spec: vector search (spec section 4.6) returns
the ranked list of (id, distance) pairs, at most limit many, ranked by
the L2 metric; ties are resolved by insertion order. -/
def searchColl (st : MilvusState) (n anns : String) (vec : List Rat) (limit : Nat) : List Hit :=
  match lookupColl st n with
  | none => []
  | some cd =>
    let pkIdx := cd.schema.fields.findIdx (fun f => f.isPrimary)
    let aIdx := cd.schema.fields.findIdx (fun f => decide (f.name = anns))
    let hits := cd.rows.map (fun r =>
      { id := valueInt (r.getD pkIdx (Value.int 0)),
        distance := sqDist vec (valueVec (r.getD aIdx (Value.int 0))) })
    (sortHits hits).take limit

/-- Modelled from the spec: structured query (spec section 4.6); the
filter expression of the script has the fixed shape field == value, so
it is modelled as an equality filter on that field, projected to the
requested output fields. -/
def queryByField (st : MilvusState) (n fld : String) (v : Int) (outputs : List String) : List Row :=
  match lookupColl st n with
  | none => []
  | some cd =>
    let fIdx := cd.schema.fields.findIdx (fun f => decide (f.name = fld))
    let matching := cd.rows.filter (fun r => decide (r.getD fIdx (Value.int 0) = Value.int v))
    matching.map (fun r =>
      outputs.map (fun o => r.getD (cd.schema.fields.findIdx (fun f => decide (f.name = o))) (Value.int 0)))

/-- Modelled from the spec: the sentence-embedding model (spec
sections 3 and 4.3): it deterministically maps a string to a
fixed-length numeric vector of length dim. -/
structure SentenceModel where
  embed : String → List Rat
  dim : Nat
  embed_dim : ∀ s, (embed s).length = dim

/-- Modelled from the spec: encode(list_of_strings) is order-preserving
and maps each string through the model (spec section 4.3). -/
def encode (m : SentenceModel) (xs : List String) : List (List Rat) :=
  xs.map m.embed

/-- Trace events recording the effectful calls made by the scripts. -/
inductive Event
| connectEvt (a u : String)
| dropColl (n : String)
| createColl (n : String)
| announceInsert (cnt : Nat)
| insertEvt (n : String) (cnt : Nat)
| flushEvt (n : String)
| indexEvt (n fld : String)
| loadEvt (n : String)
| searchEvt (n : String) (cnt : Nat)
| hitResolved (i : Int) (s : String)
| queryEvt (n : String) (i : Int)
| printRow (r : Row)
| disconnect (a : String)
deriving DecidableEq

/-- Modelled from the spec: the environment of a run (spec sections 4.1
and 6): configuration lookup by section and key, the connector, the
model artifact loader, and the random word-count draws; each fallible
external call may return an error. -/
structure Env where
  cfg : String → String → Except Err String
  connect : String → String → String → Except Err Unit
  loadModel : String → Except Err SentenceModel
  wc : Fin 3 → Int

/-- Local path of the pretrained model, shared by both scripts. -/
def bertModelDir : String := "/pyapp/models/multi-qa-MiniLM-L6-cos-v1/"

namespace EmbedScript

/-- Collection name of embed.py. -/
def collectionName : String := "ristobot"

/-- Auto-id INT64 primary-key field of embed.py. -/
def idField : FieldSchema :=
  { name := "id", dtype := DataType.int64, isPrimary := true, autoId := true }

/-- Vector field of embed.py, declared with dimension 384. -/
def ristodataField : FieldSchema :=
  { name := "ristodata", dtype := DataType.floatVector, dim := some 384 }

/-- Field list of embed.py: auto-id INT64 primary key and a 384-dim
float vector. -/
def ristoFields : List FieldSchema := [idField, ristodataField]

/-- Schema of embed.py. -/
def ristoSchema : CollectionSchema :=
  { fields := ristoFields, description := "demo for inserting BERT vectors" }

/-- Sample sentences of embed.py. -/
def sentences : List String :=
  ["This is an example sentence",
   "Each string here gets embedded",
   "The embeddings can then be indexed using Milvus"]

/-- The embed.py script: connect, drop if present, create, encode the
sample sentences, insert them as row dictionaries, flush, disconnect. -/
def runEmbed (env : Env) (st0 : MilvusState) : Except Err (MilvusState × List Event) := do
  let uri ← env.cfg "example" "uri"
  let token ← env.cfg "example" "token"
  let _ ← env.connect "default" uri token
  let dropEvs := if hasCollection st0 collectionName then [Event.dropColl collectionName] else []
  let st1 := if hasCollection st0 collectionName then dropCollection st0 collectionName else st0
  let st2 := createCollection st1 collectionName ristoSchema
  let m ← env.loadModel bertModelDir
  let sentenceEmbeddings := encode m sentences
  let entities := sentenceEmbeddings.map (fun v => [("ristodata", Value.floatVec v)])
  let r ← insertDicts st2 collectionName entities
  Except.ok (r.1,
    [Event.connectEvt "default" uri] ++ dropEvs ++
    [Event.createColl collectionName, Event.insertEvt collectionName r.2,
     Event.flushEvt collectionName, Event.disconnect "default"])

end EmbedScript

namespace TestScript

/-- Collection name of test.py. -/
def collectionName : String := "book"

/-- Declared vector dimension of test.py. -/
def dim : Nat := 384

/-- Customized primary-key field of test.py. -/
def bookIdField : FieldSchema :=
  { name := "book_id", dtype := DataType.int64, isPrimary := true,
    description := "customized primary id" }

/-- Word-count field of test.py. -/
def wordCountField : FieldSchema :=
  { name := "word_count", dtype := DataType.int64, description := "word count" }

/-- Vector field of test.py. -/
def bookIntroField : FieldSchema :=
  { name := "book_intro", dtype := DataType.floatVector, dim := some dim }

/-- Sentence text field of test.py. -/
def sentenceField : FieldSchema :=
  { name := "sentence", dtype := DataType.varchar, maxLength := some 1000,
    description := "book sentence" }

/-- Schema of test.py. -/
def bookSchema : CollectionSchema :=
  { fields := [bookIdField, wordCountField, bookIntroField, sentenceField],
    autoId := false, description := "my first book collection" }

/-- Batch size of test.py. -/
def nb : Nat := 3

/-- Announced number of insert rounds of test.py (the loop that would
use it is commented out in the source). -/
def insertRounds : Nat := 2

/-- Search string of test.py. -/
def searchStr : String := "pera"

/-- Result limit of the search of test.py. -/
def topk : Nat := 1

/-- Sample sentences of test.py. -/
def sentences : List String := ["mela", "pera", "banana"]

/-- Output fields of the structured query of test.py. -/
def outputFields : List String := ["book_id", "word_count", "sentence"]

/-- The hit-resolution loop of test.py: for each hit, the matched id is
replaced by the hit id and the sentence is looked up in the
id-to-sentence dictionary (a missing key is a KeyError). -/
def hitLoop (idMap : List (Int × String)) : List Hit → Int → Except Err (Int × List Event)
  | [], matched => Except.ok (matched, [])
  | h :: t, _ =>
    match (idMap.find? (fun p => decide (p.1 = h.id))).map Prod.snd with
    | none => Except.error "KeyError"
    | some s => do
      let r ← hitLoop idMap t h.id
      Except.ok (r.1, Event.hitResolved h.id s :: r.2)

/-- The part of test.py after the search call: the hit-resolution loop,
the structured query on the matched id, and the per-result-row print
and disconnect statements (the disconnect sits inside the result loop
in the source). -/
def afterSearchPhase (st : MilvusState) (idMap : List (Int × String)) (results : List Hit) :
    Except Err (List Event) := do
  let r ← hitLoop idMap results 0
  let res := queryByField st collectionName "book_id" r.1 outputFields
  Except.ok (r.2 ++ [Event.queryEvt collectionName r.1] ++
    (res.map (fun row => [Event.printRow row, Event.disconnect "default"])).flatten)

/-- The test.py script: connect, drop if present, create, announce the
insert, encode the sample sentences, insert in parallel-array form,
flush, build the index, load, search for the embedding of the search
string, resolve hits, query on the matched id, print and disconnect. -/
def runTest (env : Env) (st0 : MilvusState) : Except Err (MilvusState × List Event) := do
  let uri ← env.cfg "milvus_ristobot" "uri"
  let token ← env.cfg "milvus_ristobot" "token"
  let _ ← env.connect "default" uri token
  let dropEvs := if hasCollection st0 collectionName then [Event.dropColl collectionName] else []
  let st1 := if hasCollection st0 collectionName then dropCollection st0 collectionName else st0
  let st2 := createCollection st1 collectionName bookSchema
  let m ← env.loadModel bertModelDir
  let sentenceEmbeddings := encode m sentences
  let bookIds : List Int := (List.range nb).map Int.ofNat
  let idSentenceMap := bookIds.zip sentences
  let wordCounts : List Int := [env.wc 0, env.wc 1, env.wc 2]
  let bookIntros := sentenceEmbeddings
  let cols := [bookIds.map Value.int, wordCounts.map Value.int,
               bookIntros.map Value.floatVec, sentences.map Value.str]
  let ins ← insertCols st2 collectionName cols
  let searchVec := (encode m [searchStr]).getD 0 []
  let results := searchColl ins.1 collectionName "book_intro" searchVec topk
  let evq ← afterSearchPhase ins.1 idSentenceMap results
  Except.ok (ins.1,
    [Event.connectEvt "default" uri] ++ dropEvs ++
    [Event.createColl collectionName, Event.announceInsert (nb * insertRounds),
     Event.insertEvt collectionName ins.2, Event.flushEvt collectionName,
     Event.indexEvt collectionName "book_intro", Event.loadEvt collectionName,
     Event.searchEvt collectionName results.length] ++ evq)

end TestScript

/-- The rows test.py inserts: ids 0..2, the drawn word counts, the
sentence embeddings and the sentences themselves. -/
def insertedTestRows (env : Env) (m : SentenceModel) : List Row :=
  [[Value.int 0, Value.int (env.wc 0), Value.floatVec (m.embed "mela"), Value.str "mela"],
   [Value.int 1, Value.int (env.wc 1), Value.floatVec (m.embed "pera"), Value.str "pera"],
   [Value.int 2, Value.int (env.wc 2), Value.floatVec (m.embed "banana"), Value.str "banana"]]

/-- The rows embed.py inserts: generated sequential ids and the
embeddings of its three sample sentences. -/
def insertedEmbedRows (m : SentenceModel) : List Row :=
  [[Value.int 0, Value.floatVec (m.embed "This is an example sentence")],
   [Value.int 1, Value.floatVec (m.embed "Each string here gets embedded")],
   [Value.int 2, Value.floatVec (m.embed "The embeddings can then be indexed using Milvus")]]

/-- Final database state of a successful test.py run. -/
def stTestFinal (env : Env) (st : MilvusState) (m : SentenceModel) : MilvusState :=
  ("book", { schema := TestScript.bookSchema, rows := insertedTestRows env m }) ::
    (if hasCollection st "book" then dropCollection st "book" else st)

/-- Final database state of a successful embed.py run. -/
def stEmbedFinal (st : MilvusState) (m : SentenceModel) : MilvusState :=
  ("ristobot", { schema := EmbedScript.ristoSchema, rows := insertedEmbedRows m }) ::
    (if hasCollection st "ristobot" then dropCollection st "ristobot" else st)

/-- Contents of the book collection after a test.py run (none when the
run fails or the collection is absent). -/
def runTestContents (env : Env) (st : MilvusState) : Option (List Row) :=
  match TestScript.runTest env st with
  | Except.ok p => (lookupColl p.1 "book").map CollectionData.rows
  | Except.error _ => none

/-- Database state after a test.py run (unchanged when the run fails). -/
def stateAfterTest (env : Env) (st : MilvusState) : MilvusState :=
  match TestScript.runTest env st with
  | Except.ok p => p.1
  | Except.error _ => st

/-- Contents of the ristobot collection after an embed.py run. -/
def runEmbedContents (env : Env) (st : MilvusState) : Option (List Row) :=
  match EmbedScript.runEmbed env st with
  | Except.ok p => (lookupColl p.1 "ristobot").map CollectionData.rows
  | Except.error _ => none

/-- Database state after an embed.py run (unchanged when the run fails). -/
def stateAfterEmbed (env : Env) (st : MilvusState) : MilvusState :=
  match EmbedScript.runEmbed env st with
  | Except.ok p => p.1
  | Except.error _ => st

/-- Trace prefix of a successful test.py run, up to and including the
search call. -/
def testPreTrace (st : MilvusState) (u : String) : List Event :=
  [Event.connectEvt "default" u] ++
  (if hasCollection st "book" then [Event.dropColl "book"] else []) ++
  [Event.createColl "book", Event.announceInsert 6, Event.insertEvt "book" 3,
   Event.flushEvt "book", Event.indexEvt "book" "book_intro", Event.loadEvt "book",
   Event.searchEvt "book" 1]

/-- Trace of a successful embed.py run. -/
def embedTrace (st : MilvusState) (u : String) : List Event :=
  [Event.connectEvt "default" u] ++
  (if hasCollection st "ristobot" then [Event.dropColl "ristobot"] else []) ++
  [Event.createColl "ristobot", Event.insertEvt "ristobot" 3,
   Event.flushEvt "ristobot", Event.disconnect "default"]

/-- Recognizer for insert events in a trace. -/
def isInsertEvt : Event → Bool
  | Event.insertEvt _ _ => true
  | _ => false

/-- A concrete instance of the modelled embedding model: every sentence
maps to the zero vector of length 384. -/
def cModel : SentenceModel where
  embed := fun _ => List.replicate 384 0
  dim := 384
  embed_dim := fun _ => List.length_replicate 384 0

/-- A concrete instance of the modelled embedding model under which the
three sample sentences of test.py receive pairwise distinct vectors of
length 384. -/
def dModel : SentenceModel where
  embed := fun s => (if s = "pera" then (2 : Rat) else if s = "mela" then 1 else 3) ::
    List.replicate 383 0
  dim := 384
  embed_dim := fun _ => by rw [List.length_cons, List.length_replicate]

/-- A concrete environment in which every external call succeeds, the
given model is loaded, and every random draw returns w. -/
def mkEnv (m : SentenceModel) (w : Int) : Env where
  cfg := fun _ _ => Except.ok ""
  connect := fun _ _ _ => Except.ok ()
  loadModel := fun _ => Except.ok m
  wc := fun _ => w

/-- A concrete environment whose configuration lookup fails. -/
def badEnv : Env where
  cfg := fun _ _ => Except.error "boom"
  connect := fun _ _ _ => Except.ok ()
  loadModel := fun _ => Except.error "no model"
  wc := fun _ => 0

/-
Helper lemmas about the modelled operations.
-/

theorem sqDist_self (v : List Rat) : sqDist v v = 0 := by
  induction v with
  | nil => rfl
  | cons a t ih => simp [sqDist]

theorem sqDist_nonneg (u v : List Rat) : 0 ≤ sqDist u v := by
  unfold sqDist
  apply List.sum_nonneg
  intro x hx
  obtain ⟨y, _, rfl⟩ := List.mem_map.mp hx
  exact mul_self_nonneg y

theorem sqDist_eq_zero_of (u v : List Rat) (hl : u.length = v.length) (h : sqDist u v = 0) :
    u = v := by
  induction u generalizing v with
  | nil => cases v with
    | nil => rfl
    | cons b t => simp at hl
  | cons a t ih =>
    cases v with
    | nil => simp at hl
    | cons b s =>
      have h1 : (0:Rat) ≤ (a - b) * (a - b) := mul_self_nonneg _
      have h2 : 0 ≤ sqDist t s := sqDist_nonneg t s
      have hsum : (a - b) * (a - b) + sqDist t s = 0 := by
        simpa [sqDist] using h
      have hab : (a - b) * (a - b) = 0 := by linarith
      have hts : sqDist t s = 0 := by linarith
      have hA : a = b := by
        have := mul_self_eq_zero.mp hab
        linarith
      simp at hl
      rw [hA, ih s hl hts]

theorem sqDist_pos (u v : List Rat) (hl : u.length = v.length) (hne : u ≠ v) :
    0 < sqDist u v := by
  rcases lt_or_eq_of_le (sqDist_nonneg u v) with h | h
  · exact h
  · exact absurd (sqDist_eq_zero_of u v hl h.symm) hne

theorem updateColl_of_not_has (st : MilvusState) (n : String) (h : hasCollection st n = false)
    (f : CollectionData → CollectionData) : updateColl st n f = st := by
  induction st with
  | nil => rfl
  | cons p t ih =>
    simp [hasCollection] at h
    simp [updateColl, h.1]
    have h2 : hasCollection t n = false := by
      simp [hasCollection]
      exact h.2
    simpa [updateColl] using ih h2

theorem updateColl_drop (st : MilvusState) (n : String) (f : CollectionData → CollectionData) :
    updateColl (dropCollection st n) n f = dropCollection st n := by
  apply updateColl_of_not_has
  simp [hasCollection, dropCollection]

theorem updateColl_cons (n : String) (d : CollectionData) (t : MilvusState)
    (f : CollectionData → CollectionData) :
    updateColl ((n, d) :: t) n f = (n, f d) :: updateColl t n f := by
  simp [updateColl]

theorem countColl_drop (st : MilvusState) (n : String) : countColl (dropCollection st n) n = 0 := by
  simp [countColl, dropCollection, List.countP_eq_zero]

theorem countColl_of_not_has (st : MilvusState) (n : String) (h : hasCollection st n = false) :
    countColl st n = 0 := by
  simp [countColl, List.countP_eq_zero]
  simp [hasCollection] at h
  intro a b hab
  exact h a b hab

theorem countColl_cons (n : String) (d : CollectionData) (t : MilvusState) :
    countColl ((n, d) :: t) n = countColl t n + 1 := by
  simp [countColl, List.countP_cons]

theorem insertHit_length (h : Hit) (l : List Hit) : (insertHit h l).length = l.length + 1 := by
  induction l with
  | nil => rfl
  | cons h2 t ih =>
    by_cases hc : h.distance ≤ h2.distance
    · simp [insertHit, hc]
    · simp [insertHit, hc, ih]

theorem sortHits_length (l : List Hit) : (sortHits l).length = l.length := by
  induction l with
  | nil => rfl
  | cons h t ih =>
    simp [sortHits, List.foldr_cons, insertHit_length]
    simpa [sortHits] using ih

theorem mem_insertHit (a h : Hit) (l : List Hit) (hm : a ∈ insertHit h l) : a = h ∨ a ∈ l := by
  induction l with
  | nil => simpa [insertHit] using hm
  | cons h2 t ih =>
    by_cases hc : h.distance ≤ h2.distance
    · simpa [insertHit, hc] using hm
    · simp [insertHit, hc] at hm
      rcases hm with hm | hm
      · exact Or.inr (by simp [hm])
      · rcases ih hm with hh | hh
        · exact Or.inl hh
        · exact Or.inr (by simp [hh])

theorem mem_sortHits (a : Hit) (l : List Hit) (hm : a ∈ sortHits l) : a ∈ l := by
  induction l generalizing a with
  | nil => simp [sortHits] at hm
  | cons h t ih =>
    have hm2 : a ∈ insertHit h (sortHits t) := by simpa [sortHits] using hm
    rcases mem_insertHit a h (sortHits t) hm2 with hh | hh
    · simp [hh]
    · exact List.mem_cons_of_mem _ (ih a hh)

theorem insertCols_test_ok (env : Env) (st : MilvusState) (m : SentenceModel)
    (hdim : m.dim = 384) :
    insertCols
        (createCollection
          (if hasCollection st TestScript.collectionName = true then dropCollection st TestScript.collectionName
          else st)
          TestScript.collectionName TestScript.bookSchema)
        TestScript.collectionName
        [List.map Value.int (List.map Int.ofNat (List.range TestScript.nb)),
          List.map Value.int [env.wc 0, env.wc 1, env.wc 2], List.map Value.floatVec (encode m TestScript.sentences),
          List.map Value.str TestScript.sentences] = Except.ok (stTestFinal env st m, 3) := by
  cases hb : hasCollection st "book" with
  | true =>
    simp [insertCols, lookupColl, createCollection, TestScript.collectionName, TestScript.bookSchema,
      TestScript.bookIdField, TestScript.wordCountField, TestScript.bookIntroField, TestScript.sentenceField,
      TestScript.nb, TestScript.sentences, TestScript.dim, encode, checkValue, m.embed_dim, hdim,
      updateColl_cons, updateColl_drop, stTestFinal, insertedTestRows, hb, List.range_succ]
    decide
  | false =>
    simp [insertCols, lookupColl, createCollection, TestScript.collectionName, TestScript.bookSchema,
      TestScript.bookIdField, TestScript.wordCountField, TestScript.bookIntroField, TestScript.sentenceField,
      TestScript.nb, TestScript.sentences, TestScript.dim, encode, checkValue, m.embed_dim, hdim,
      updateColl_cons, stTestFinal, insertedTestRows, hb, List.range_succ,
      updateColl_of_not_has st "book" hb]
    decide

theorem searchColl_test (env : Env) (st : MilvusState) (m : SentenceModel)
    (hne1 : m.embed "pera" ≠ m.embed "mela") :
    searchColl (stTestFinal env st m) "book" "book_intro" (m.embed "pera") 1 =
      [{ id := 1, distance := 0 }] := by
  have hq0 : sqDist (m.embed "pera") (m.embed "pera") = 0 := sqDist_self _
  have hd0 : ¬ sqDist (m.embed "pera") (m.embed "mela") ≤ 0 :=
    not_le.mpr (sqDist_pos _ _ (by rw [m.embed_dim, m.embed_dim]) hne1)
  have hd2 : (0:Rat) ≤ sqDist (m.embed "pera") (m.embed "banana") := sqDist_nonneg _ _
  simp [searchColl, lookupColl, stTestFinal, insertedTestRows, TestScript.bookSchema,
    TestScript.bookIdField, TestScript.wordCountField, TestScript.bookIntroField,
    TestScript.sentenceField, TestScript.dim, valueInt, valueVec, sortHits, insertHit,
    hq0, hd0, hd2, List.findIdx, List.findIdx.go]

theorem searchColl_test_shape (env : Env) (st : MilvusState) (m : SentenceModel) (q : List Rat) :
    ∃ h : Hit, searchColl (stTestFinal env st m) "book" "book_intro" q 1 = [h] ∧
      h.id ∈ ([0, 1, 2] : List Int) := by
  have hs : searchColl (stTestFinal env st m) "book" "book_intro" q 1 =
      (sortHits [{ id := 0, distance := sqDist q (m.embed "mela") },
                 { id := 1, distance := sqDist q (m.embed "pera") },
                 { id := 2, distance := sqDist q (m.embed "banana") }]).take 1 := rfl
  set hits : List Hit := [{ id := 0, distance := sqDist q (m.embed "mela") },
                 { id := 1, distance := sqDist q (m.embed "pera") },
                 { id := 2, distance := sqDist q (m.embed "banana") }] with hhits
  have hlen : (sortHits hits).length = 3 := by rw [sortHits_length]; rfl
  cases hsort : sortHits hits with
  | nil => rw [hsort] at hlen; simp at hlen
  | cons h rest =>
    refine ⟨h, ?_, ?_⟩
    · rw [hs, hsort]; rfl
    · have hmem : h ∈ sortHits hits := by rw [hsort]; exact List.mem_cons_self h rest
      have hm2 := mem_sortHits h hits hmem
      rw [hhits] at hm2
      simp only [List.mem_cons, List.not_mem_nil, or_false] at hm2
      rcases hm2 with h0 | h1 | h2
      · simp [h0]
      · simp [h1]
      · simp [h2]

theorem runTest_ok_general (env : Env) (st : MilvusState) (u t : String) (m : SentenceModel)
    (hu : env.cfg "milvus_ristobot" "uri" = Except.ok u)
    (ht : env.cfg "milvus_ristobot" "token" = Except.ok t)
    (hc : env.connect "default" u t = Except.ok ())
    (hm : env.loadModel bertModelDir = Except.ok m)
    (hdim : m.dim = 384) :
    ∃ (i : Int) (sn : String) (r : Row), i ∈ ([0, 1, 2] : List Int) ∧
      TestScript.runTest env st = Except.ok (stTestFinal env st m,
        testPreTrace st u ++ [Event.hitResolved i sn, Event.queryEvt "book" i,
          Event.printRow r, Event.disconnect "default"]) := by
  obtain ⟨h, hsearch, hid⟩ :=
    searchColl_test_shape env st m ((encode m [TestScript.searchStr]).getD 0 [])
  obtain ⟨i, d⟩ := h
  rw [TestScript.runTest]
  simp only [hu, ht, hc, hm, bind, Except.bind]
  rw [insertCols_test_ok env st m hdim]
  simp only [TestScript.collectionName, TestScript.topk]
  rw [hsearch]
  simp only [List.mem_cons, List.not_mem_nil, or_false] at hid
  rcases hid with h0 | h1 | h2
  · subst h0
    refine ⟨0, "mela", [Value.int 0, Value.int (env.wc 0), Value.str "mela"], by simp, ?_⟩
    have hasp : TestScript.afterSearchPhase (stTestFinal env st m)
        ((List.map Int.ofNat (List.range TestScript.nb)).zip TestScript.sentences)
        [{ id := 0, distance := d }] =
        Except.ok [Event.hitResolved 0 "mela", Event.queryEvt "book" 0,
          Event.printRow [Value.int 0, Value.int (env.wc 0), Value.str "mela"],
          Event.disconnect "default"] := rfl
    rw [hasp]
    simp [testPreTrace, TestScript.nb, TestScript.insertRounds]
  · subst h1
    refine ⟨1, "pera", [Value.int 1, Value.int (env.wc 1), Value.str "pera"], by simp, ?_⟩
    have hasp : TestScript.afterSearchPhase (stTestFinal env st m)
        ((List.map Int.ofNat (List.range TestScript.nb)).zip TestScript.sentences)
        [{ id := 1, distance := d }] =
        Except.ok [Event.hitResolved 1 "pera", Event.queryEvt "book" 1,
          Event.printRow [Value.int 1, Value.int (env.wc 1), Value.str "pera"],
          Event.disconnect "default"] := rfl
    rw [hasp]
    simp [testPreTrace, TestScript.nb, TestScript.insertRounds]
  · subst h2
    refine ⟨2, "banana", [Value.int 2, Value.int (env.wc 2), Value.str "banana"], by simp, ?_⟩
    have hasp : TestScript.afterSearchPhase (stTestFinal env st m)
        ((List.map Int.ofNat (List.range TestScript.nb)).zip TestScript.sentences)
        [{ id := 2, distance := d }] =
        Except.ok [Event.hitResolved 2 "banana", Event.queryEvt "book" 2,
          Event.printRow [Value.int 2, Value.int (env.wc 2), Value.str "banana"],
          Event.disconnect "default"] := rfl
    rw [hasp]
    simp [testPreTrace, TestScript.nb, TestScript.insertRounds]

theorem runTest_ok_distinct (env : Env) (st : MilvusState) (u t : String) (m : SentenceModel)
    (hu : env.cfg "milvus_ristobot" "uri" = Except.ok u)
    (ht : env.cfg "milvus_ristobot" "token" = Except.ok t)
    (hc : env.connect "default" u t = Except.ok ())
    (hm : env.loadModel bertModelDir = Except.ok m)
    (hdim : m.dim = 384)
    (hne1 : m.embed "pera" ≠ m.embed "mela") :
    TestScript.runTest env st = Except.ok (stTestFinal env st m,
      testPreTrace st u ++ [Event.hitResolved 1 "pera", Event.queryEvt "book" 1,
        Event.printRow [Value.int 1, Value.int (env.wc 1), Value.str "pera"],
        Event.disconnect "default"]) := by
  rw [TestScript.runTest]
  simp only [hu, ht, hc, hm, bind, Except.bind]
  rw [insertCols_test_ok env st m hdim]
  simp only [TestScript.collectionName, TestScript.topk]
  have hq : ((encode m [TestScript.searchStr]).getD 0 []) = m.embed "pera" := rfl
  rw [hq, searchColl_test env st m hne1]
  have hasp : TestScript.afterSearchPhase (stTestFinal env st m)
      ((List.map Int.ofNat (List.range TestScript.nb)).zip TestScript.sentences)
      [{ id := 1, distance := 0 }] =
      Except.ok [Event.hitResolved 1 "pera", Event.queryEvt "book" 1,
        Event.printRow [Value.int 1, Value.int (env.wc 1), Value.str "pera"],
        Event.disconnect "default"] := rfl
  rw [hasp]
  simp [testPreTrace, TestScript.nb, TestScript.insertRounds]

theorem runEmbed_ok (env : Env) (st : MilvusState) (u t : String) (m : SentenceModel)
    (hu : env.cfg "example" "uri" = Except.ok u)
    (ht : env.cfg "example" "token" = Except.ok t)
    (hc : env.connect "default" u t = Except.ok ())
    (hm : env.loadModel bertModelDir = Except.ok m)
    (hdim : m.dim = 384) :
    EmbedScript.runEmbed env st = Except.ok (stEmbedFinal st m, embedTrace st u) := by
  rw [EmbedScript.runEmbed]
  simp only [hu, ht, hc, hm, bind, Except.bind]
  cases hb : hasCollection st "ristobot" with
  | true =>
    simp [insertDicts, lookupColl, createCollection, EmbedScript.collectionName,
      EmbedScript.ristoSchema, EmbedScript.ristoFields, EmbedScript.idField,
      EmbedScript.ristodataField, EmbedScript.sentences, encode,
      checkValue, m.embed_dim, hdim, updateColl_cons, updateColl_drop, stEmbedFinal,
      insertedEmbedRows, embedTrace, hb, List.range_succ]
  | false =>
    simp [insertDicts, lookupColl, createCollection, EmbedScript.collectionName,
      EmbedScript.ristoSchema, EmbedScript.ristoFields, EmbedScript.idField,
      EmbedScript.ristodataField, EmbedScript.sentences, encode,
      checkValue, m.embed_dim, hdim, updateColl_cons, stEmbedFinal,
      insertedEmbedRows, embedTrace, hb, List.range_succ,
      updateColl_of_not_has st "ristobot" hb]

/-
Claim theorems.
-/

/-- C1: for every list of input strings, encode returns a list of
vectors of the same length as the input, order-preserving (the i-th
output is the embedding of the i-th input), and each element is a
numeric sequence of exactly 384 entries. -/
theorem claim_C1 (m : SentenceModel) (xs : List String) (hdim : m.dim = 384) :
    (encode m xs).length = xs.length ∧
    (∀ i : Nat, (encode m xs).get? i = (xs.get? i).map m.embed) ∧
    (∀ v ∈ encode m xs, v.length = 384) := by
  refine ⟨by simp [encode], fun i => by simp [encode], fun v hv => ?_⟩
  obtain ⟨s, _, rfl⟩ := List.mem_map.mp (by simpa [encode] using hv)
  rw [m.embed_dim, hdim]

/-- Witness for C1 at a concrete model and the sentence list of
test.py. -/
theorem claim_C1_witness :
    cModel.dim = 384 ∧
    (encode cModel TestScript.sentences).length = TestScript.sentences.length :=
  ⟨rfl, (claim_C1 cModel TestScript.sentences rfl).1⟩

/-- C8: if the vector search returns zero hits, the hit-resolution loop
body of test.py executes zero times (it yields no events, leaves the
matched id at its initial value 0, and raises no error), and the run
continues into the structured query as a no-op rather than failing. -/
theorem claim_C8 (st : MilvusState) (idMap : List (Int × String)) :
    TestScript.hitLoop idMap [] 0 = Except.ok (0, []) ∧
    TestScript.afterSearchPhase st idMap [] =
      Except.ok ([Event.queryEvt "book" 0] ++
        ((queryByField st "book" "book_id" 0 TestScript.outputFields).map
          (fun row => [Event.printRow row, Event.disconnect "default"])).flatten) := by
  constructor
  · rfl
  · rfl

/-- C9: neither script handles errors: a failure of any external call
(configuration lookup of the uri or token, connecting, loading the
model) propagates unchanged as the result of the whole run, and a
dimension mismatch between the model and the schema aborts the run at
the insert; no retry and no recovery occurs. -/
theorem claim_C9 (env : Env) (st : MilvusState) (e : Err) :
    (env.cfg "example" "uri" = Except.error e → EmbedScript.runEmbed env st = Except.error e) ∧
    (∀ u, env.cfg "example" "uri" = Except.ok u →
      env.cfg "example" "token" = Except.error e →
      EmbedScript.runEmbed env st = Except.error e) ∧
    (∀ u t, env.cfg "example" "uri" = Except.ok u →
      env.cfg "example" "token" = Except.ok t →
      env.connect "default" u t = Except.error e →
      EmbedScript.runEmbed env st = Except.error e) ∧
    (∀ u t, env.cfg "example" "uri" = Except.ok u →
      env.cfg "example" "token" = Except.ok t →
      env.connect "default" u t = Except.ok () →
      env.loadModel bertModelDir = Except.error e →
      EmbedScript.runEmbed env st = Except.error e) ∧
    (∀ u t m, env.cfg "example" "uri" = Except.ok u →
      env.cfg "example" "token" = Except.ok t →
      env.connect "default" u t = Except.ok () →
      env.loadModel bertModelDir = Except.ok m →
      ¬ m.dim = 384 →
      EmbedScript.runEmbed env st = Except.error "schema validation failed") ∧
    (env.cfg "milvus_ristobot" "uri" = Except.error e →
      TestScript.runTest env st = Except.error e) ∧
    (∀ u, env.cfg "milvus_ristobot" "uri" = Except.ok u →
      env.cfg "milvus_ristobot" "token" = Except.error e →
      TestScript.runTest env st = Except.error e) ∧
    (∀ u t, env.cfg "milvus_ristobot" "uri" = Except.ok u →
      env.cfg "milvus_ristobot" "token" = Except.ok t →
      env.connect "default" u t = Except.error e →
      TestScript.runTest env st = Except.error e) ∧
    (∀ u t, env.cfg "milvus_ristobot" "uri" = Except.ok u →
      env.cfg "milvus_ristobot" "token" = Except.ok t →
      env.connect "default" u t = Except.ok () →
      env.loadModel bertModelDir = Except.error e →
      TestScript.runTest env st = Except.error e) ∧
    (∀ u t m, env.cfg "milvus_ristobot" "uri" = Except.ok u →
      env.cfg "milvus_ristobot" "token" = Except.ok t →
      env.connect "default" u t = Except.ok () →
      env.loadModel bertModelDir = Except.ok m →
      ¬ m.dim = 384 →
      TestScript.runTest env st = Except.error "schema validation failed") := by
  refine ⟨?_, ?_, ?_, ?_, ?_, ?_, ?_, ?_, ?_, ?_⟩
  · intro h
    rw [EmbedScript.runEmbed]
    simp [h, bind, Except.bind]
  · intro u hu h
    rw [EmbedScript.runEmbed]
    simp [hu, h, bind, Except.bind]
  · intro u t hu ht h
    rw [EmbedScript.runEmbed]
    simp [hu, ht, h, bind, Except.bind]
  · intro u t hu ht hc h
    rw [EmbedScript.runEmbed]
    simp [hu, ht, hc, h, bind, Except.bind]
  · intro u t m hu ht hc hm hne
    have hne2 : ¬ (384 = m.dim) := fun hx => hne hx.symm
    rw [EmbedScript.runEmbed]
    simp [hu, ht, hc, hm, bind, Except.bind, insertDicts, lookupColl, createCollection,
      EmbedScript.collectionName, EmbedScript.ristoSchema, EmbedScript.ristoFields,
      EmbedScript.idField, EmbedScript.ristodataField, EmbedScript.sentences, encode,
      checkValue, m.embed_dim, hne2, List.range_succ]
  · intro h
    rw [TestScript.runTest]
    simp [h, bind, Except.bind]
  · intro u hu h
    rw [TestScript.runTest]
    simp [hu, h, bind, Except.bind]
  · intro u t hu ht h
    rw [TestScript.runTest]
    simp [hu, ht, h, bind, Except.bind]
  · intro u t hu ht hc h
    rw [TestScript.runTest]
    simp [hu, ht, hc, h, bind, Except.bind]
  · intro u t m hu ht hc hm hne
    have hne2 : ¬ (384 = m.dim) := fun hx => hne hx.symm
    rw [TestScript.runTest]
    simp [hu, ht, hc, hm, bind, Except.bind, insertCols, lookupColl, createCollection,
      TestScript.collectionName, TestScript.bookSchema, TestScript.bookIdField,
      TestScript.wordCountField, TestScript.bookIntroField, TestScript.sentenceField,
      TestScript.nb, TestScript.sentences, TestScript.dim, encode,
      checkValue, m.embed_dim, hne2, List.range_succ]

/-- Witness for C9: on an environment whose configuration lookup fails
with the message boom, both runs fail with exactly that message. -/
theorem claim_C9_witness :
    EmbedScript.runEmbed badEnv [] = Except.error "boom" ∧
    TestScript.runTest badEnv [] = Except.error "boom" :=
  ⟨(claim_C9 badEnv [] "boom").1 rfl,
   (claim_C9 badEnv [] "boom").2.2.2.2.2.1 rfl⟩

/-- C3: when the embeddings of the inserted sentences are pairwise
distinguishable from the query (here: pera differs from mela), the
search vector test.py computes for the query string pera equals the
embedding inserted for book_id 1 (encode is deterministic), the run
succeeds, the top-1 search hit is book_id 1 at distance exactly 0, and
the row stored under book_id 1 is the pera row. -/
theorem claim_C3 (env : Env) (st : MilvusState) (u t : String) (m : SentenceModel)
    (hu : env.cfg "milvus_ristobot" "uri" = Except.ok u)
    (ht : env.cfg "milvus_ristobot" "token" = Except.ok t)
    (hc : env.connect "default" u t = Except.ok ())
    (hm : env.loadModel bertModelDir = Except.ok m)
    (hdim : m.dim = 384)
    (hne1 : m.embed "pera" ≠ m.embed "mela") :
    ((encode m [TestScript.searchStr]).getD 0 []) = m.embed "pera" ∧
    TestScript.runTest env st = Except.ok (stTestFinal env st m,
      testPreTrace st u ++ [Event.hitResolved 1 "pera", Event.queryEvt "book" 1,
        Event.printRow [Value.int 1, Value.int (env.wc 1), Value.str "pera"],
        Event.disconnect "default"]) ∧
    searchColl (stTestFinal env st m) "book" "book_intro" (m.embed "pera") TestScript.topk =
      [{ id := 1, distance := 0 }] ∧
    (insertedTestRows env m).get? 1 =
      some [Value.int 1, Value.int (env.wc 1), Value.floatVec (m.embed "pera"),
        Value.str "pera"] :=
  ⟨rfl, runTest_ok_distinct env st u t m hu ht hc hm hdim hne1,
   searchColl_test env st m hne1, rfl⟩

/-- Witness for C3 at a concrete environment whose model separates the
three sentences. -/
theorem claim_C3_witness :
    searchColl (stTestFinal (mkEnv dModel 3) [] dModel) "book" "book_intro"
      (dModel.embed "pera") TestScript.topk = [{ id := 1, distance := 0 }] :=
  (claim_C3 (mkEnv dModel 3) [] "" "" dModel rfl rfl rfl rfl rfl (by decide)).2.2.1

/-- C4: under the same assumptions as C3, the hit returned by the top-1
search has book_id 1, and the structured query filtering on that
primary-key value returns exactly one row whose fields book_id,
word_count and sentence equal the values originally inserted for id 1
(book_id 1, the second word-count draw, and the sentence pera). -/
theorem claim_C4 (env : Env) (st : MilvusState) (u t : String) (m : SentenceModel)
    (hu : env.cfg "milvus_ristobot" "uri" = Except.ok u)
    (ht : env.cfg "milvus_ristobot" "token" = Except.ok t)
    (hc : env.connect "default" u t = Except.ok ())
    (hm : env.loadModel bertModelDir = Except.ok m)
    (hdim : m.dim = 384)
    (hne1 : m.embed "pera" ≠ m.embed "mela") :
    (∃ tr, TestScript.runTest env st = Except.ok (stTestFinal env st m, tr)) ∧
    ∀ h : Hit, searchColl (stTestFinal env st m) "book" "book_intro"
        ((encode m [TestScript.searchStr]).getD 0 []) TestScript.topk = [h] →
      h.id = 1 ∧
      queryByField (stTestFinal env st m) "book" "book_id" h.id TestScript.outputFields =
        [[Value.int 1, Value.int (env.wc 1), Value.str "pera"]] ∧
      (queryByField (stTestFinal env st m) "book" "book_id" h.id
        TestScript.outputFields).length = 1 := by
  refine ⟨⟨_, runTest_ok_distinct env st u t m hu ht hc hm hdim hne1⟩, ?_⟩
  intro h hs
  have hq : ((encode m [TestScript.searchStr]).getD 0 []) = m.embed "pera" := rfl
  simp only [TestScript.topk] at hs
  rw [hq, searchColl_test env st m hne1] at hs
  have hh : h = { id := 1, distance := 0 } := by
    have := congrArg (fun l => l.headD { id := 9, distance := 9 }) hs
    simpa using this.symm
  subst hh
  refine ⟨rfl, ?_, ?_⟩
  · rfl
  · rfl

/-- Witness for C4 at a concrete environment whose model separates the
three sentences. -/
theorem claim_C4_witness :
    queryByField (stTestFinal (mkEnv dModel 9) [] dModel) "book" "book_id"
      (Hit.mk 1 0).id TestScript.outputFields =
    [[Value.int 1, Value.int 9, Value.str "pera"]] :=
  ((claim_C4 (mkEnv dModel 9) [] "" "" dModel rfl rfl rfl rfl rfl (by decide)).2
    { id := 1, distance := 0 }
    (searchColl_test (mkEnv dModel 9) [] dModel (by decide))).2.1

/-- C2: in every successful run of either script, the drop of the
target collection happens exactly when the pre-run state contains it
(the drop is guarded by the existence check), and after the run exactly
one collection with the target name exists, containing exactly the
newly inserted entities. -/
theorem claim_C2 (env : Env) (st : MilvusState) (u1 t1 u2 t2 : String) (m : SentenceModel)
    (hu1 : env.cfg "example" "uri" = Except.ok u1)
    (ht1 : env.cfg "example" "token" = Except.ok t1)
    (hc1 : env.connect "default" u1 t1 = Except.ok ())
    (hu2 : env.cfg "milvus_ristobot" "uri" = Except.ok u2)
    (ht2 : env.cfg "milvus_ristobot" "token" = Except.ok t2)
    (hc2 : env.connect "default" u2 t2 = Except.ok ())
    (hm : env.loadModel bertModelDir = Except.ok m)
    (hdim : m.dim = 384) :
    ∃ st1 tr1 st2 tr2,
      EmbedScript.runEmbed env st = Except.ok (st1, tr1) ∧
      TestScript.runTest env st = Except.ok (st2, tr2) ∧
      (hasCollection st "ristobot" = true → Event.dropColl "ristobot" ∈ tr1) ∧
      (hasCollection st "ristobot" = false → Event.dropColl "ristobot" ∉ tr1) ∧
      (hasCollection st "book" = true → Event.dropColl "book" ∈ tr2) ∧
      (hasCollection st "book" = false → Event.dropColl "book" ∉ tr2) ∧
      countColl st1 "ristobot" = 1 ∧
      (lookupColl st1 "ristobot").map CollectionData.rows = some (insertedEmbedRows m) ∧
      countColl st2 "book" = 1 ∧
      (lookupColl st2 "book").map CollectionData.rows = some (insertedTestRows env m) := by
  obtain ⟨i, sn, r, hi, heq2⟩ := runTest_ok_general env st u2 t2 m hu2 ht2 hc2 hm hdim
  refine ⟨stEmbedFinal st m, embedTrace st u1, stTestFinal env st m,
    testPreTrace st u2 ++ [Event.hitResolved i sn, Event.queryEvt "book" i,
      Event.printRow r, Event.disconnect "default"],
    runEmbed_ok env st u1 t1 m hu1 ht1 hc1 hm hdim, heq2, ?_, ?_, ?_, ?_, ?_, ?_, ?_, ?_⟩
  · intro hb
    simp [embedTrace, hb]
  · intro hb
    simp [embedTrace, hb]
  · intro hb
    simp [testPreTrace, hb]
  · intro hb
    simp [testPreTrace, hb]
  · rw [stEmbedFinal, countColl_cons]
    cases hb : hasCollection st "ristobot" with
    | true => simp [countColl_drop]
    | false => simp [countColl_of_not_has st "ristobot" hb]
  · rfl
  · rw [stTestFinal, countColl_cons]
    cases hb : hasCollection st "book" with
    | true => simp [countColl_drop]
    | false => simp [countColl_of_not_has st "book" hb]
  · rfl

/-- Witness for C2 at a concrete environment and the empty initial
state. -/
theorem claim_C2_witness :
    ∃ st1 tr1 st2 tr2,
      EmbedScript.runEmbed (mkEnv dModel 5) [] = Except.ok (st1, tr1) ∧
      TestScript.runTest (mkEnv dModel 5) [] = Except.ok (st2, tr2) ∧
      (hasCollection [] "ristobot" = true → Event.dropColl "ristobot" ∈ tr1) ∧
      (hasCollection [] "ristobot" = false → Event.dropColl "ristobot" ∉ tr1) ∧
      (hasCollection [] "book" = true → Event.dropColl "book" ∈ tr2) ∧
      (hasCollection [] "book" = false → Event.dropColl "book" ∉ tr2) ∧
      countColl st1 "ristobot" = 1 ∧
      (lookupColl st1 "ristobot").map CollectionData.rows = some (insertedEmbedRows dModel) ∧
      countColl st2 "book" = 1 ∧
      (lookupColl st2 "book").map CollectionData.rows =
        some (insertedTestRows (mkEnv dModel 5) dModel) :=
  claim_C2 (mkEnv dModel 5) [] "" "" "" "" dModel rfl rfl rfl rfl rfl rfl rfl rfl

/-- C5 counterexample: two consecutive end-to-end runs of test.py (the
second starting from the final state of the first) with different
random word-count draws produce different final collection contents,
so the claim as stated fails on the code. -/
theorem claim_C5_counterexample :
    runTestContents (mkEnv cModel 2) (stateAfterTest (mkEnv cModel 1) []) ≠
      runTestContents (mkEnv cModel 1) [] := by
  obtain ⟨i1, sn1, r1, _, heq1⟩ :=
    runTest_ok_general (mkEnv cModel 1) [] "" "" cModel rfl rfl rfl rfl rfl
  obtain ⟨i2, sn2, r2, _, heq2⟩ :=
    runTest_ok_general (mkEnv cModel 2) (stateAfterTest (mkEnv cModel 1) []) "" "" cModel
      rfl rfl rfl rfl rfl
  have hc1 : runTestContents (mkEnv cModel 1) [] =
      some (insertedTestRows (mkEnv cModel 1) cModel) := by
    simp only [runTestContents, heq1]
    rfl
  have hc2 : runTestContents (mkEnv cModel 2) (stateAfterTest (mkEnv cModel 1) []) =
      some (insertedTestRows (mkEnv cModel 2) cModel) := by
    simp only [runTestContents, heq2]
    rfl
  rw [hc1, hc2]
  simp [insertedTestRows, mkEnv]

/-- C5 amended: the final collection contents of a run are independent
of the database state the run starts from (the drop-then-create reset),
so re-running test.py reproduces the contents exactly when the two runs
draw the same word counts, and re-running embed.py (which draws no
random values) always reproduces them. -/
theorem claim_C5 (env : Env) (st st2 : MilvusState) (u1 t1 u2 t2 : String) (m : SentenceModel)
    (hu1 : env.cfg "example" "uri" = Except.ok u1)
    (ht1 : env.cfg "example" "token" = Except.ok t1)
    (hc1 : env.connect "default" u1 t1 = Except.ok ())
    (hu2 : env.cfg "milvus_ristobot" "uri" = Except.ok u2)
    (ht2 : env.cfg "milvus_ristobot" "token" = Except.ok t2)
    (hc2 : env.connect "default" u2 t2 = Except.ok ())
    (hm : env.loadModel bertModelDir = Except.ok m)
    (hdim : m.dim = 384) :
    runTestContents env st = some (insertedTestRows env m) ∧
    runTestContents env st2 = runTestContents env st ∧
    runTestContents env (stateAfterTest env st) = runTestContents env st ∧
    runEmbedContents env st = some (insertedEmbedRows m) ∧
    runEmbedContents env (stateAfterEmbed env st) = runEmbedContents env st := by
  have hT : ∀ s, runTestContents env s = some (insertedTestRows env m) := by
    intro s
    obtain ⟨i, sn, r, _, heq⟩ := runTest_ok_general env s u2 t2 m hu2 ht2 hc2 hm hdim
    simp only [runTestContents, heq]
    rfl
  have hE : ∀ s, runEmbedContents env s = some (insertedEmbedRows m) := by
    intro s
    simp only [runEmbedContents, runEmbed_ok env s u1 t1 m hu1 ht1 hc1 hm hdim]
    rfl
  exact ⟨hT st, (hT st2).trans (hT st).symm, (hT _).trans (hT st).symm,
    hE st, (hE _).trans (hE st).symm⟩

/-- Witness for the amended C5 at a concrete environment and two
distinct initial states. -/
theorem claim_C5_witness :
    runTestContents (mkEnv dModel 4) [] =
      some (insertedTestRows (mkEnv dModel 4) dModel) ∧
    runTestContents (mkEnv dModel 4)
        [("book", { schema := TestScript.bookSchema, rows := [] })] =
      runTestContents (mkEnv dModel 4) [] ∧
    runTestContents (mkEnv dModel 4) (stateAfterTest (mkEnv dModel 4) []) =
      runTestContents (mkEnv dModel 4) [] ∧
    runEmbedContents (mkEnv dModel 4) [] = some (insertedEmbedRows dModel) ∧
    runEmbedContents (mkEnv dModel 4) (stateAfterEmbed (mkEnv dModel 4) []) =
      runEmbedContents (mkEnv dModel 4) [] :=
  claim_C5 (mkEnv dModel 4) [] [("book", { schema := TestScript.bookSchema, rows := [] })]
    "" "" "" "" dModel rfl rfl rfl rfl rfl rfl rfl rfl

/-- C6: in every successful run of either script, the named connection
default is disconnected exactly once, and the disconnect is the last
effectful call of the run. -/
theorem claim_C6 (env : Env) (st : MilvusState) (u1 t1 u2 t2 : String) (m : SentenceModel)
    (hu1 : env.cfg "example" "uri" = Except.ok u1)
    (ht1 : env.cfg "example" "token" = Except.ok t1)
    (hc1 : env.connect "default" u1 t1 = Except.ok ())
    (hu2 : env.cfg "milvus_ristobot" "uri" = Except.ok u2)
    (ht2 : env.cfg "milvus_ristobot" "token" = Except.ok t2)
    (hc2 : env.connect "default" u2 t2 = Except.ok ())
    (hm : env.loadModel bertModelDir = Except.ok m)
    (hdim : m.dim = 384) :
    (∃ st1 tr1, EmbedScript.runEmbed env st = Except.ok (st1, tr1) ∧
      tr1.countP (fun e => decide (e = Event.disconnect "default")) = 1 ∧
      tr1.getLast? = some (Event.disconnect "default")) ∧
    (∃ st2 tr2, TestScript.runTest env st = Except.ok (st2, tr2) ∧
      tr2.countP (fun e => decide (e = Event.disconnect "default")) = 1 ∧
      tr2.getLast? = some (Event.disconnect "default")) := by
  constructor
  · refine ⟨stEmbedFinal st m, embedTrace st u1,
      runEmbed_ok env st u1 t1 m hu1 ht1 hc1 hm hdim, ?_, ?_⟩
    · cases hb : hasCollection st "ristobot" with
      | true => simp [embedTrace, hb, List.countP_cons]
      | false => simp [embedTrace, hb, List.countP_cons]
    · cases hb : hasCollection st "ristobot" with
      | true => simp [embedTrace, hb]
      | false => simp [embedTrace, hb]
  · obtain ⟨i, sn, r, hi, heq⟩ := runTest_ok_general env st u2 t2 m hu2 ht2 hc2 hm hdim
    refine ⟨stTestFinal env st m, _, heq, ?_, ?_⟩
    · rw [List.countP_append]
      have h1 : (testPreTrace st u2).countP
          (fun e => decide (e = Event.disconnect "default")) = 0 := by
        cases hb : hasCollection st "book" with
        | true => simp [testPreTrace, hb, List.countP_cons]
        | false => simp [testPreTrace, hb, List.countP_cons]
      rw [h1]
      simp [List.countP_cons]
    · rw [List.getLast?_append_of_ne_nil _ (by simp)]
      rfl

/-- Witness for C6 at a concrete environment and the empty initial
state. -/
theorem claim_C6_witness :
    (∃ st1 tr1, EmbedScript.runEmbed (mkEnv dModel 4) [] = Except.ok (st1, tr1) ∧
      tr1.countP (fun e => decide (e = Event.disconnect "default")) = 1 ∧
      tr1.getLast? = some (Event.disconnect "default")) ∧
    (∃ st2 tr2, TestScript.runTest (mkEnv dModel 4) [] = Except.ok (st2, tr2) ∧
      tr2.countP (fun e => decide (e = Event.disconnect "default")) = 1 ∧
      tr2.getLast? = some (Event.disconnect "default")) :=
  claim_C6 (mkEnv dModel 4) [] "" "" "" "" dModel rfl rfl rfl rfl rfl rfl rfl rfl

/-- C7: the collection schemas of both scripts declare the vector field
with dimension exactly 384, and in every successful run every entity
stored in the target collection carries a vector value of length
exactly 384 in that field. -/
theorem claim_C7 (env : Env) (st : MilvusState) (u1 t1 u2 t2 : String) (m : SentenceModel)
    (hu1 : env.cfg "example" "uri" = Except.ok u1)
    (ht1 : env.cfg "example" "token" = Except.ok t1)
    (hc1 : env.connect "default" u1 t1 = Except.ok ())
    (hu2 : env.cfg "milvus_ristobot" "uri" = Except.ok u2)
    (ht2 : env.cfg "milvus_ristobot" "token" = Except.ok t2)
    (hc2 : env.connect "default" u2 t2 = Except.ok ())
    (hm : env.loadModel bertModelDir = Except.ok m)
    (hdim : m.dim = 384) :
    TestScript.bookIntroField.dim = some 384 ∧
    EmbedScript.ristodataField.dim = some 384 ∧
    (∃ st1 tr1, EmbedScript.runEmbed env st = Except.ok (st1, tr1) ∧
      ∀ cd, lookupColl st1 "ristobot" = some cd → ∀ r ∈ cd.rows,
        ∃ v, r.getD 1 (Value.int 0) = Value.floatVec v ∧ v.length = 384) ∧
    (∃ st2 tr2, TestScript.runTest env st = Except.ok (st2, tr2) ∧
      ∀ cd, lookupColl st2 "book" = some cd → ∀ r ∈ cd.rows,
        ∃ v, r.getD 2 (Value.int 0) = Value.floatVec v ∧ v.length = 384) := by
  refine ⟨rfl, rfl, ?_, ?_⟩
  · refine ⟨stEmbedFinal st m, embedTrace st u1,
      runEmbed_ok env st u1 t1 m hu1 ht1 hc1 hm hdim, ?_⟩
    intro cd hcd r hr
    have hcd2 : cd = { schema := EmbedScript.ristoSchema, rows := insertedEmbedRows m } := by
      have : some cd = some { schema := EmbedScript.ristoSchema, rows := insertedEmbedRows m } := by
        rw [← hcd]
        rfl
      exact Option.some.inj this
    subst hcd2
    simp only [insertedEmbedRows, List.mem_cons, List.not_mem_nil, or_false] at hr
    rcases hr with h0 | h1 | h2
    · subst h0
      exact ⟨_, rfl, by rw [m.embed_dim, hdim]⟩
    · subst h1
      exact ⟨_, rfl, by rw [m.embed_dim, hdim]⟩
    · subst h2
      exact ⟨_, rfl, by rw [m.embed_dim, hdim]⟩
  · obtain ⟨i, sn, r0, hi, heq⟩ := runTest_ok_general env st u2 t2 m hu2 ht2 hc2 hm hdim
    refine ⟨stTestFinal env st m, _, heq, ?_⟩
    intro cd hcd r hr
    have hcd2 : cd = { schema := TestScript.bookSchema, rows := insertedTestRows env m } := by
      have : some cd = some { schema := TestScript.bookSchema, rows := insertedTestRows env m } := by
        rw [← hcd]
        rfl
      exact Option.some.inj this
    subst hcd2
    simp only [insertedTestRows, List.mem_cons, List.not_mem_nil, or_false] at hr
    rcases hr with h0 | h1 | h2
    · subst h0
      exact ⟨_, rfl, by rw [m.embed_dim, hdim]⟩
    · subst h1
      exact ⟨_, rfl, by rw [m.embed_dim, hdim]⟩
    · subst h2
      exact ⟨_, rfl, by rw [m.embed_dim, hdim]⟩

/-- Witness for C7 at a concrete environment and the empty initial
state. -/
theorem claim_C7_witness :
    TestScript.bookIntroField.dim = some 384 ∧
    EmbedScript.ristodataField.dim = some 384 ∧
    (∃ st1 tr1, EmbedScript.runEmbed (mkEnv cModel 7) [] = Except.ok (st1, tr1) ∧
      ∀ cd, lookupColl st1 "ristobot" = some cd → ∀ r ∈ cd.rows,
        ∃ v, r.getD 1 (Value.int 0) = Value.floatVec v ∧ v.length = 384) ∧
    (∃ st2 tr2, TestScript.runTest (mkEnv cModel 7) [] = Except.ok (st2, tr2) ∧
      ∀ cd, lookupColl st2 "book" = some cd → ∀ r ∈ cd.rows,
        ∃ v, r.getD 2 (Value.int 0) = Value.floatVec v ∧ v.length = 384) :=
  claim_C7 (mkEnv cModel 7) [] "" "" "" "" cModel rfl rfl rfl rfl rfl rfl rfl rfl

/-- C10: a successful run of test.py performs exactly one insert call,
inserting exactly nb = 3 entities (the multi-round loop is commented
out in the source), while its progress message announces
nb * insert_rounds = 6 entities. -/
theorem claim_C10 (env : Env) (st : MilvusState) (u t : String) (m : SentenceModel)
    (hu : env.cfg "milvus_ristobot" "uri" = Except.ok u)
    (ht : env.cfg "milvus_ristobot" "token" = Except.ok t)
    (hc : env.connect "default" u t = Except.ok ())
    (hm : env.loadModel bertModelDir = Except.ok m)
    (hdim : m.dim = 384) :
    TestScript.nb = 3 ∧
    TestScript.nb * TestScript.insertRounds = 6 ∧
    ∃ st2 tr, TestScript.runTest env st = Except.ok (st2, tr) ∧
      (lookupColl st2 "book").map (fun cd => cd.rows.length) = some 3 ∧
      tr.countP isInsertEvt = 1 ∧
      Event.insertEvt "book" 3 ∈ tr ∧
      Event.announceInsert 6 ∈ tr := by
  obtain ⟨i, sn, r, hi, heq⟩ := runTest_ok_general env st u t m hu ht hc hm hdim
  refine ⟨rfl, rfl, stTestFinal env st m, _, heq, rfl, ?_, ?_, ?_⟩
  · rw [List.countP_append]
    have h1 : (testPreTrace st u).countP isInsertEvt = 1 := by
      cases hb : hasCollection st "book" with
      | true => simp [testPreTrace, hb, List.countP_cons, isInsertEvt]
      | false => simp [testPreTrace, hb, List.countP_cons, isInsertEvt]
    rw [h1]
    simp [List.countP_cons, isInsertEvt]
  · apply List.mem_append_left
    cases hb : hasCollection st "book" with
    | true => simp [testPreTrace, hb]
    | false => simp [testPreTrace, hb]
  · apply List.mem_append_left
    cases hb : hasCollection st "book" with
    | true => simp [testPreTrace, hb]
    | false => simp [testPreTrace, hb]

/-- Witness for C10 at a concrete environment and the empty initial
state. -/
theorem claim_C10_witness :
    TestScript.nb = 3 ∧
    TestScript.nb * TestScript.insertRounds = 6 ∧
    ∃ st2 tr, TestScript.runTest (mkEnv cModel 8) [] = Except.ok (st2, tr) ∧
      (lookupColl st2 "book").map (fun cd => cd.rows.length) = some 3 ∧
      tr.countP isInsertEvt = 1 ∧
      Event.insertEvt "book" 3 ∈ tr ∧
      Event.announceInsert 6 ∈ tr :=
  claim_C10 (mkEnv cModel 8) [] "" "" cModel rfl rfl rfl rfl rfl
